import Mathlib

/-!
Shallow embedding of the machine-level simulation driver in
`src/ptlsim/sim/machine.cpp` (MARSS), together with theorems settling the
frozen claims about it.  Pure control flow of `BaseMachine::init`,
`BaseMachine::setup_threads`, `BaseMachine::run`, `BaseMachine::run_threaded`,
`BaseMachine::run_cores_thread`, `BaseMachine::reset`, the destructor and the
options store are translated into executable Lean definitions; opaque
collaborators (cores, the memory hierarchy, the logger) appear only through
the values the driver reads from them (termination votes, committed
instruction counts).
-/

namespace Marss

/-- Configuration fields of `PTLsimConfig` consumed by the driver
(machine.cpp reads exactly these). -/
structure PTLsimConfig where
  machine_config : String
  threaded_simulation : Bool
  cores_per_pthread : Nat
  start_log_at_iteration : Nat
  log_user_only : Bool
  loglevel : Nat
  stop_at_user_insns : Nat
  wait_all_finished : Bool
  cache_config_type : String
  deriving Repr, DecidableEq

/-- What the driver observes from one core during one cycle: the value
returned by `runcycle()` (the termination vote) and the value returned by
`get_insns_committed()` (the cumulative committed-instruction counter). -/
structure CoreOut where
  vote : Bool
  committed : Nat
  deriving Repr, DecidableEq

/-- Mutable state of the simulation loop visible in `BaseMachine::run` and
`BaseMachine::run_threaded`: the global counters, the accumulated
`exiting` flag of the sequential loop, and `ret_qemu_env`
(`none` models the NULL pointer, `some 0` models `&contextof(0)`). -/
structure RunState where
  sim_cycle : Nat
  iterations : Nat
  total_user_insns_committed : Nat
  ret_qemu_env : Option Nat
  exiting : Bool
  deriving Repr, DecidableEq

/-- Observable outcome of one iteration of the sequential `for(;;)` loop in
`BaseMachine::run` (machine.cpp lines 212-269). -/
structure SeqCycleOut where
  state : RunState
  brk : Bool
  progress : Bool
  mhClocked : Bool
  deriving Repr, DecidableEq

/-- One iteration of the sequential loop of `BaseMachine::run`:
`update_progress` when `sim_cycle % 1000 == 0`; clock the memory hierarchy;
run every core accumulating `exiting |= runcycle()`; recompute
`total_user_insns_committed` as the sum of the cores' counters; advance
`sim_cycle` and `iterations`; then the two exit checks, the first of which
breaks without touching `ret_qemu_env` and the second of which binds
`ret_qemu_env` to context 0 when it is NULL. -/
def seqCycle (cfg : PTLsimConfig) (outs : List CoreOut) (s : RunState) :
    SeqCycleOut :=
  let progress := s.sim_cycle % 1000 = 0
  let exiting := s.exiting || outs.any CoreOut.vote
  let total := (outs.map CoreOut.committed).sum
  let s1 : RunState :=
    { s with total_user_insns_committed := total,
             sim_cycle := s.sim_cycle + 1,
             iterations := s.iterations + 1,
             exiting := exiting }
  if cfg.wait_all_finished = true ∨ cfg.stop_at_user_insns ≤ total then
    ⟨{ s1 with exiting := true }, true, progress, true⟩
  else if exiting = true then
    ⟨{ s1 with ret_qemu_env :=
        if s1.ret_qemu_env = none then some 0 else s1.ret_qemu_env },
      true, progress, true⟩
  else
    ⟨s1, false, progress, true⟩

/-- Observable outcome of one iteration of the `for(;;)` loop in
`BaseMachine::run_threaded` (machine.cpp lines 283-345).  `degraded` is true
when the loop returned early through the deferred-logging check, in which
case `cfg` carries the cleared `threaded_simulation` flag and `retval` is
the `false` returned to the caller; otherwise `retval` is the value
`run_threaded` returns when `brk` is true. -/
structure ThrCycleOut where
  degraded : Bool
  cfg : PTLsimConfig
  state : RunState
  brk : Bool
  progress : Bool
  mhClocked : Bool
  retval : Bool
  deriving Repr, DecidableEq

/-- One iteration of the threaded loop of `BaseMachine::run_threaded`:
first the deferred-logging check, which clears `config.threaded_simulation`
and returns `false` before any of the cycle's work; otherwise
`update_progress` when `sim_cycle % 10000 == 0`, clock the memory
hierarchy, release the workers through the two barriers (their net effect:
`exit_requested` is the disjunction of the votes of the worker-covered
cores, read and cleared by the orchestrator), recompute
`total_user_insns_committed` as the sum over all cores, advance the
counters, then the same two exit checks as the sequential loop. -/
def thrCycle (cfg : PTLsimConfig) (coveredVotes : List Bool)
    (committed : List Nat) (s : RunState) : ThrCycleOut :=
  if cfg.start_log_at_iteration ≠ 0 ∧
      cfg.start_log_at_iteration ≤ s.iterations then
    ⟨true, { cfg with threaded_simulation := false }, s,
      false, false, false, false⟩
  else
    let progress := s.sim_cycle % 10000 = 0
    let exiting := coveredVotes.any id
    let total := committed.sum
    let s1 : RunState :=
      { s with total_user_insns_committed := total,
               sim_cycle := s.sim_cycle + 1,
               iterations := s.iterations + 1,
               exiting := exiting }
    if cfg.wait_all_finished = true ∨ cfg.stop_at_user_insns ≤ total then
      ⟨false, cfg, { s1 with exiting := true }, true, progress, true, true⟩
    else if exiting = true then
      ⟨false, cfg, { s1 with ret_qemu_env :=
          if s1.ret_qemu_env = none then some 0 else s1.ret_qemu_env },
        true, progress, true, exiting⟩
    else
      ⟨false, cfg, s1, false, progress, true, false⟩

/-- Modelled from the spec: the logging macro `logable(1)` used at
machine.cpp line 109 is declared outside src/; section 6.1 of the spec
states that `loglevel >= 1` forces sequential mode, so `logable(1)` is
modelled as `1 <= loglevel`. -/
def logable1 (cfg : PTLsimConfig) : Bool :=
  decide (1 ≤ cfg.loglevel)

/-- The worker count computed at machine.cpp line 117:
`ceil(num_cores / config.cores_per_pthread)` where both operands are C
ints, so the division truncates before `ceil` is applied and the result
is the floor of the quotient. -/
def num_threads (num_cores cores_per_pthread : Nat) : Nat :=
  num_cores / cores_per_pthread

/-- The coreid slice worker `i` simulates: `BaseMachine::setup_threads`
passes `start_id = i * cores_per_pthread` and `run_cores_thread` (lines
355-368) takes cores from `start_coreid` up to
`min(start_coreid + cores_per_pthread, cores.count())`. -/
def workerCores (cores_per_pthread num_cores i : Nat) : List Nat :=
  let start := i * cores_per_pthread
  let stop := min (start + cores_per_pthread) num_cores
  List.range' start (stop - start)

/-- Result of `BaseMachine::setup_threads`: the configuration after the
call (the `threaded_simulation` flag may have been cleared) and the number
of worker threads spawned. -/
structure SetupThreadsOut where
  cfg : PTLsimConfig
  spawned : Nat
  deriving Repr, DecidableEq

/-- `BaseMachine::setup_threads` (machine.cpp lines 98-167): return at once
when `threaded_simulation` is off; clear the flag and return when
`num_cores <= cores_per_pthread` or `logable(1)`; otherwise spawn
`num_threads` workers. -/
def setup_threads (cfg : PTLsimConfig) (num_cores : Nat) : SetupThreadsOut :=
  if cfg.threaded_simulation = false then ⟨cfg, 0⟩
  else if num_cores ≤ cfg.cores_per_pthread ∨ logable1 cfg = true then
    ⟨{ cfg with threaded_simulation := false }, 0⟩
  else
    ⟨cfg, num_threads num_cores cfg.cores_per_pthread⟩

/-- The dispatch at machine.cpp lines 208-210: `BaseMachine::run` enters
`run_threaded` exactly when `config.threaded_simulation` is still set. -/
def runIsThreaded (cfg : PTLsimConfig) : Bool :=
  cfg.threaded_simulation

/- Initialization of a machine: `BaseMachine::init` (machine.cpp lines
72-96).  The machine generator invoked through
`machineBuilder.setup_machine` adds cores (`CoreBuilder::add_new_core`
pushes onto `machine.cores`) and controllers
(`ControllerBuilder::add_new_cont` pushes onto `machine.controllers`). -/

/-- A callback the machine generator performs into the machine during
`setup_machine`: adding a core or adding a controller. -/
inductive GenEvent where
  | addCore (id : Nat)
  | addController (id : Nat)
  deriving Repr, DecidableEq

/-- State of the machine during `BaseMachine::init`: the default cache
configuration string, whether `memoryHierarchyPtr` has been constructed,
and the cores and controllers sequences. -/
structure InitState where
  cache_config_type : String
  mhConstructed : Bool
  cores : List Nat
  controllers : List Nat
  deriving Repr, DecidableEq

/-- Effect of one generator callback on the machine state. -/
def applyGenEvent (s : InitState) (e : GenEvent) : InitState :=
  match e with
  | .addCore id => { s with cores := s.cores ++ [id] }
  | .addController id => { s with controllers := s.controllers ++ [id] }

/-- States the machine passes through while the generator runs, one per
callback, in callback order. -/
def genStates (s : InitState) : List GenEvent → List InitState
  | [] => []
  | e :: es =>
    let s1 := applyGenEvent s e
    s1 :: genStates s1 es

/-- The machine state when `BaseMachine::init` starts: no memory
hierarchy, no cores, no controllers. -/
def initState0 : InitState := ⟨"", false, [], []⟩

/-- Every state reachable during `BaseMachine::init`, in program order:
the initial state; after `config.cache_config_type = "auto"` (line 76);
after `memoryHierarchyPtr = new MemoryHierarchy(*this)` (line 79); then
one state per generator callback made by `setup_machine` (line 87). -/
def initStates (gen : List GenEvent) : List InitState :=
  let s1 := { initState0 with cache_config_type := "auto" }
  let s2 := { s1 with mhConstructed := true }
  initState0 :: s1 :: s2 :: genStates s2 gen

/-- The machine state when `BaseMachine::init` returns (and hence before
the first simulated cycle runs): the post-construction state with every
generator callback applied. -/
def initFinal (gen : List GenEvent) : InitState :=
  gen.foldl applyGenEvent
    { initState0 with cache_config_type := "auto", mhConstructed := true }

/- Teardown: `BaseMachine::reset` (machine.cpp lines 48-65) and the
destructor `BaseMachine::~BaseMachine` (lines 39-46). -/

/-- The owned components of a machine, each component named by a
construction-order index, plus the allocation counters reset by
`BaseMachine::reset`. -/
structure MachineComponents where
  cores : List Nat
  controllers : List Nat
  interconnects : List Nat
  memHierarchy : Bool
  pthreads : List Nat
  context_used : List Nat
  context_counter : Nat
  coreid_counter : Nat
  deriving Repr, DecidableEq

/-- An observable teardown action: releasing an owned component, killing a
worker thread, or deregistering the machine from the global registry. -/
inductive TeardownEvent where
  | releaseCore (id : Nat)
  | releaseController (id : Nat)
  | releaseInterconnect (id : Nat)
  | releaseMemHierarchy
  | killThread (id : Nat)
  | removeMachine
  deriving Repr, DecidableEq

/-- `BaseMachine::reset`: zero the counters, `delete cores[i]` with `i`
ascending, clear the cores sequence, and delete the memory hierarchy when
present.  Returns the machine state afterwards and the release events in
the order they happen. -/
def resetMachine (m : MachineComponents) :
    MachineComponents × List TeardownEvent :=
  ( { m with context_used := [], context_counter := 0, coreid_counter := 0,
             cores := [], memHierarchy := false },
    m.cores.map TeardownEvent.releaseCore ++
      (if m.memHierarchy then [TeardownEvent.releaseMemHierarchy] else []) )

/-- `BaseMachine::~BaseMachine`: `pthread_kill` each worker thread with
`i` ascending, then `removemachine`; no owned component is deleted. -/
def destructMachine (m : MachineComponents) : List TeardownEvent :=
  m.pthreads.map TeardownEvent.killThread ++ [TeardownEvent.removeMachine]

/- Prologue of `BaseMachine::run` (machine.cpp lines 195-203): per core,
`reset()` only when `first_run`, then `check_ctx_changes()`; afterwards
`first_run = 0`. -/

/-- Observable effect of one invocation of the prologue of
`BaseMachine::run`: which cores got `reset()`, which cores got
`check_ctx_changes()`, and the value of `first_run` afterwards. -/
structure PrologueOut where
  resets : List Nat
  checks : List Nat
  first_run : Bool
  deriving Repr, DecidableEq

/-- One invocation of the prologue of `BaseMachine::run`. -/
def runPrologue (cores : List Nat) (first : Bool) : PrologueOut :=
  ⟨if first then cores else [], cores, false⟩

/-- The outcomes of `n` successive invocations of `BaseMachine::run`'s
prologue, threading `first_run` from one invocation to the next. -/
def prologueTrace (cores : List Nat) (first : Bool) : Nat → List PrologueOut
  | 0 => []
  | n + 1 =>
    let out := runPrologue cores first
    out :: prologueTrace cores out.first_run n

/- Options store: `BaseMachine::add_option` / `BaseMachine::get_option`
(machine.cpp lines 514-622).  The `Hashtable` type is declared outside
src/; it is embedded as an association list where `add` prepends and `get`
returns the first binding for the key, so that `add` on an existing key
shadows the old binding the way an in-place hashtable update would. -/

/-- Lookup in the association-list embedding of `Hashtable::get`. -/
def assocGet {β : Type} (m : List (String × β)) (k : String) : Option β :=
  match m with
  | [] => none
  | (k2, v) :: rest => if k2 = k then some v else assocGet rest k

/-- Insertion in the association-list embedding of `Hashtable::add`. -/
def assocAdd {β : Type} (m : List (String × β)) (k : String) (v : β) :
    List (String × β) :=
  (k, v) :: m

/-- The three typed option tables of `BaseMachine`: `bool_options`,
`int_options` and `str_options`, each mapping a component-instance name to
an inner table mapping option names to values. -/
structure OptionsStore where
  bool_options : List (String × List (String × Bool))
  int_options : List (String × List (String × Int))
  str_options : List (String × List (String × String))
  deriving Repr, DecidableEq

/-- `BaseMachine::add_option(name, opt, bool value)` (lines 514-525):
fetch the inner table for `name`, creating an empty one when absent, and
add the `(opt, value)` binding to it. -/
def add_option_bool (s : OptionsStore) (name opt : String) (v : Bool) :
    OptionsStore :=
  let inner := (assocGet s.bool_options name).getD []
  { s with bool_options := assocAdd s.bool_options name (assocAdd inner opt v) }

/-- `BaseMachine::add_option(name, opt, int value)` (lines 527-538). -/
def add_option_int (s : OptionsStore) (name opt : String) (v : Int) :
    OptionsStore :=
  let inner := (assocGet s.int_options name).getD []
  { s with int_options := assocAdd s.int_options name (assocAdd inner opt v) }

/-- `BaseMachine::add_option(name, opt, const char* value)` (lines
540-553): the value is copied into a fresh `stringbuf`. -/
def add_option_str (s : OptionsStore) (name opt : String) (v : String) :
    OptionsStore :=
  let inner := (assocGet s.str_options name).getD []
  { s with str_options := assocAdd s.str_options name (assocAdd inner opt v) }

/-- `BaseMachine::get_option(name, opt_name, bool& value)` (lines
579-592): returns the C++ return value paired with the final contents of
the out-parameter, which is overwritten only on success. -/
def get_option_bool (s : OptionsStore) (name opt : String) (out : Bool) :
    Bool × Bool :=
  match assocGet s.bool_options name with
  | some inner =>
    match assocGet inner opt with
    | some v => (true, v)
    | none => (false, out)
  | none => (false, out)

/-- `BaseMachine::get_option(name, opt_name, int& value)` (lines 594-607). -/
def get_option_int (s : OptionsStore) (name opt : String) (out : Int) :
    Bool × Int :=
  match assocGet s.int_options name with
  | some inner =>
    match assocGet inner opt with
    | some v => (true, v)
    | none => (false, out)
  | none => (false, out)

/-- `BaseMachine::get_option(name, opt_name, stringbuf& value)` (lines
609-622): on success the stored string is appended (`value << **bt`) to
the out-parameter's current contents. -/
def get_option_str (s : OptionsStore) (name opt : String) (out : String) :
    Bool × String :=
  match assocGet s.str_options name with
  | some inner =>
    match assocGet inner opt with
    | some v => (true, out ++ v)
    | none => (false, out)
  | none => (false, out)

/- Helper lemmas. -/

/-- Looking up a key just added finds the added value. -/
theorem assocGet_add_self {β : Type} (m : List (String × β)) (k : String)
    (v : β) : assocGet (assocAdd m k v) k = some v := by
  simp [assocAdd, assocGet]

/-- Generator callbacks never unconstruct the memory hierarchy: every
state they produce keeps `mhConstructed` set when the starting state has
it set. -/
theorem genStates_mh (gen : List GenEvent) :
    ∀ s : InitState, s.mhConstructed = true →
      ∀ t ∈ genStates s gen, t.mhConstructed = true := by
  induction gen with
  | nil =>
    intro s _ t ht
    simp [genStates] at ht
  | cons e es ih =>
    intro s hs t ht
    have hmh : (applyGenEvent s e).mhConstructed = true := by
      cases e <;> simpa [applyGenEvent] using hs
    simp only [genStates, List.mem_cons] at ht
    rcases ht with rfl | ht
    · exact hmh
    · exact ih (applyGenEvent s e) hmh t ht

/-- Folding generator callbacks preserves a constructed memory
hierarchy. -/
theorem foldl_applyGenEvent_mh (gen : List GenEvent) :
    ∀ s : InitState, s.mhConstructed = true →
      (gen.foldl applyGenEvent s).mhConstructed = true := by
  induction gen with
  | nil => intro s hs; simpa using hs
  | cons e es ih =>
    intro s hs
    have hmh : (applyGenEvent s e).mhConstructed = true := by
      cases e <;> simpa [applyGenEvent] using hs
    simpa [List.foldl] using ih (applyGenEvent s e) hmh

/-- After the first invocation of the prologue, `first_run` stays clear
and every later invocation resets no core while checking every core. -/
theorem prologueTrace_not_first (cores : List Nat) (n : Nat) :
    prologueTrace cores false n =
      List.replicate n ⟨[], cores, false⟩ := by
  induction n with
  | zero => rfl
  | succ k ih => simp [prologueTrace, runPrologue, ih, List.replicate]

/- Concrete fixtures used by witnesses and counterexamples. -/

/-- A configuration with threading off, no deferred logging, instruction
budget 100. -/
def wCfg : PTLsimConfig := ⟨"m", false, 2, 0, false, 0, 100, false, "auto"⟩

/-- The same configuration with `wait_all_finished` set. -/
def waitCfg : PTLsimConfig := ⟨"m", false, 2, 0, false, 0, 100, true, "auto"⟩

/-- The loop state at the very first cycle. -/
def wState : RunState := ⟨0, 0, 0, none, false⟩

/-- A loop state whose `sim_cycle` is 1000. -/
def s1000 : RunState := ⟨1000, 17, 42, none, false⟩

/- Claims. -/

/-- C5: for every component-instance name, option name, and value of each
of the three kinds, `add_option` followed by `get_option` returns true and
leaves the out-parameter equal to the stored value (the string
out-parameter starting out as a fresh empty `stringbuf`). -/
theorem C5_option_roundtrip (s : OptionsStore) (name opt : String)
    (b outb : Bool) (n outn : Int) (v : String) :
    get_option_bool (add_option_bool s name opt b) name opt outb =
      (true, b) ∧
    get_option_int (add_option_int s name opt n) name opt outn =
      (true, n) ∧
    get_option_str (add_option_str s name opt v) name opt ("") =
      (true, v) := by
  refine ⟨?_, ?_, ?_⟩ <;>
    simp [get_option_bool, get_option_int, get_option_str,
      add_option_bool, add_option_int, add_option_str, assocGet_add_self]

/-- C6: threaded mode is entered (run dispatches to `run_threaded`) iff
`threaded_simulation` is set, the core count strictly exceeds
`cores_per_pthread`, and `loglevel` is below 1; and whenever the
post-setup flag is clear no worker was spawned. -/
theorem C6_threaded_mode_iff (cfg : PTLsimConfig) (num_cores : Nat) :
    (runIsThreaded (setup_threads cfg num_cores).cfg = true ↔
      (cfg.threaded_simulation = true ∧
        cfg.cores_per_pthread < num_cores ∧ cfg.loglevel = 0)) ∧
    ((setup_threads cfg num_cores).cfg.threaded_simulation = false →
      (setup_threads cfg num_cores).spawned = 0) := by
  unfold setup_threads runIsThreaded logable1
  split_ifs with h1 h2 <;> simp_all <;> omega

/-- C7: the threaded loop performs its early return — clearing the
`threaded_simulation` flag, leaving the loop state untouched, clocking
nothing, and handing `false` back to the caller — exactly at cycles where
`start_log_at_iteration` is nonzero and the iteration count has reached
it. -/
theorem C7_threaded_degradation (cfg : PTLsimConfig) (cv : List Bool)
    (cm : List Nat) (s : RunState) :
    (thrCycle cfg cv cm s =
        ⟨true, { cfg with threaded_simulation := false }, s,
          false, false, false, false⟩) ↔
      (cfg.start_log_at_iteration ≠ 0 ∧
        cfg.start_log_at_iteration ≤ s.iterations) := by
  constructor
  · intro heq
    by_contra hc
    have hdeg : (thrCycle cfg cv cm s).degraded = false := by
      unfold thrCycle
      rw [if_neg hc]
      dsimp only
      split_ifs <;> rfl
    rw [heq] at hdeg
    simp at hdeg
  · intro hc
    unfold thrCycle
    rw [if_pos hc]

/-- C10: starting from a fresh machine (`first_run` set), the first
invocation of the prologue of `run` resets every core, every subsequent
invocation resets no core, and every invocation checks context changes on
every core. -/
theorem C10_first_run (cores : List Nat) (n : Nat) :
    prologueTrace cores true (n + 1) =
      ⟨cores, cores, false⟩ ::
        List.replicate n ⟨[], cores, false⟩ := by
  simp [prologueTrace, runPrologue, prologueTrace_not_first]

/-- C3: in either mode, a cycle that runs to its end exits the loop at
that end iff `wait_all_finished` is set, the summed committed-instruction
count has reached `stop_at_user_insns`, or some core's `runcycle` voted
true that cycle (the sequential hypothesis `s.exiting = false` holds at
every cycle start, since a set flag breaks the loop; the threaded
hypothesis rules out the early deferred-logging return). -/
theorem C3_stop_predicate (cfg : PTLsimConfig) (outs : List CoreOut)
    (cv : List Bool) (cm : List Nat) (s t : RunState)
    (hs : s.exiting = false)
    (ht : ¬ (cfg.start_log_at_iteration ≠ 0 ∧
      cfg.start_log_at_iteration ≤ t.iterations)) :
    ((seqCycle cfg outs s).brk = true ↔
      (cfg.wait_all_finished = true ∨
        cfg.stop_at_user_insns ≤ (outs.map CoreOut.committed).sum ∨
        outs.any CoreOut.vote = true)) ∧
    ((thrCycle cfg cv cm t).brk = true ↔
      (cfg.wait_all_finished = true ∨ cfg.stop_at_user_insns ≤ cm.sum ∨
        cv.any id = true)) := by
  constructor
  · unfold seqCycle
    dsimp only
    split_ifs with h1 h2 <;> simp_all <;> tauto
  · unfold thrCycle
    rw [if_neg ht]
    dsimp only
    split_ifs with h1 h2 <;> simp_all <;> tauto

/-- Witness for C3 at a concrete input: one core voting to terminate on
the first cycle with the budget not yet reached. -/
theorem C3_stop_predicate_witness :
    wState.exiting = false ∧
    (((seqCycle wCfg [⟨true, 5⟩] wState).brk = true ↔
      (wCfg.wait_all_finished = true ∨
        wCfg.stop_at_user_insns ≤
          (List.map CoreOut.committed [⟨true, 5⟩]).sum ∨
        List.any [⟨true, 5⟩] CoreOut.vote = true)) ∧
    ((thrCycle wCfg [true] [5] wState).brk = true ↔
      (wCfg.wait_all_finished = true ∨
        wCfg.stop_at_user_insns ≤ List.sum [5] ∨
        List.any [true] id = true))) :=
  ⟨rfl, C3_stop_predicate wCfg [⟨true, 5⟩] [true] [5] wState wState rfl
    (by decide)⟩

/-- C4 as stated is false: with `wait_all_finished` set and no core
voting, the loop exits through the budget/wait break, which leaves
`ret_qemu_env` NULL. -/
theorem C4_counterexample :
    (seqCycle waitCfg [⟨false, 0⟩] wState).brk = true ∧
    (seqCycle waitCfg [⟨false, 0⟩] wState).state.ret_qemu_env = none ∧
    wState.ret_qemu_env = none := by decide

/-- C4 amended: `ret_qemu_env` is bound (to context 0 when previously
NULL) exactly when the cycle exits through the termination-vote branch,
that is, some core voted while neither `wait_all_finished` nor the
instruction budget triggered; on a budget or wait-all-finished exit it is
left untouched. -/
theorem C4_ret_qemu_env (cfg : PTLsimConfig) (outs : List CoreOut)
    (cv : List Bool) (cm : List Nat) (s t : RunState)
    (hs : s.exiting = false)
    (ht : ¬ (cfg.start_log_at_iteration ≠ 0 ∧
      cfg.start_log_at_iteration ≤ t.iterations)) :
    ((seqCycle cfg outs s).state.ret_qemu_env =
      if cfg.wait_all_finished = false ∧
          ¬ cfg.stop_at_user_insns ≤ (outs.map CoreOut.committed).sum ∧
          outs.any CoreOut.vote = true then
        (if s.ret_qemu_env = none then some 0 else s.ret_qemu_env)
      else s.ret_qemu_env) ∧
    ((thrCycle cfg cv cm t).state.ret_qemu_env =
      if cfg.wait_all_finished = false ∧
          ¬ cfg.stop_at_user_insns ≤ cm.sum ∧ cv.any id = true then
        (if t.ret_qemu_env = none then some 0 else t.ret_qemu_env)
      else t.ret_qemu_env) := by
  constructor
  · unfold seqCycle
    dsimp only
    split_ifs with h1 h2 <;> simp_all <;> tauto
  · unfold thrCycle
    rw [if_neg ht]
    dsimp only
    split_ifs with h1 h2 <;> simp_all <;> tauto

/-- Witness for C4's amended claim at a concrete input: a lone vote binds
`ret_qemu_env` to context 0. -/
theorem C4_ret_qemu_env_witness :
    wState.exiting = false ∧
    (((seqCycle wCfg [⟨true, 5⟩] wState).state.ret_qemu_env =
      if wCfg.wait_all_finished = false ∧
          ¬ wCfg.stop_at_user_insns ≤
            (List.map CoreOut.committed [⟨true, 5⟩]).sum ∧
          List.any [⟨true, 5⟩] CoreOut.vote = true then
        (if wState.ret_qemu_env = none then some 0 else wState.ret_qemu_env)
      else wState.ret_qemu_env) ∧
    ((thrCycle wCfg [true] [5] wState).state.ret_qemu_env =
      if wCfg.wait_all_finished = false ∧
          ¬ wCfg.stop_at_user_insns ≤ List.sum [5] ∧
          List.any [true] id = true then
        (if wState.ret_qemu_env = none then some 0 else wState.ret_qemu_env)
      else wState.ret_qemu_env)) :=
  ⟨rfl, C4_ret_qemu_env wCfg [⟨true, 5⟩] [true] [5] wState wState rfl
    (by decide)⟩

/-- C8 as stated is false: at `sim_cycle = 1000` the sequential loop
updates the progress indicator but the threaded loop does not, because its
stride is 10000, not 1000. -/
theorem C8_counterexample :
    s1000.sim_cycle % 1000 = 0 ∧
    (seqCycle wCfg [] s1000).progress = true ∧
    (thrCycle wCfg [] [] s1000).progress = false := by decide

/-- C8 amended: the sequential loop updates the progress indicator exactly
when `sim_cycle` is a multiple of 1000; the threaded loop updates it
exactly when `sim_cycle` is a multiple of 10000 (on cycles that are not
the early deferred-logging return). -/
theorem C8_progress_stride (cfg : PTLsimConfig) (outs : List CoreOut)
    (cv : List Bool) (cm : List Nat) (s t : RunState)
    (ht : ¬ (cfg.start_log_at_iteration ≠ 0 ∧
      cfg.start_log_at_iteration ≤ t.iterations)) :
    ((seqCycle cfg outs s).progress = true ↔ s.sim_cycle % 1000 = 0) ∧
    ((thrCycle cfg cv cm t).progress = true ↔ t.sim_cycle % 10000 = 0) := by
  constructor
  · unfold seqCycle
    dsimp only
    split_ifs <;> simp
  · unfold thrCycle
    rw [if_neg ht]
    dsimp only
    split_ifs <;> simp

/-- Witness for C8's amended claim at `sim_cycle = 1000`. -/
theorem C8_progress_stride_witness :
    ((seqCycle wCfg [] s1000).progress = true ↔
      s1000.sim_cycle % 1000 = 0) ∧
    ((thrCycle wCfg [] [] s1000).progress = true ↔
      s1000.sim_cycle % 10000 = 0) :=
  C8_progress_stride wCfg [] [] [] s1000 s1000 (by decide)

/-- C1 as stated is false: with a generator that adds one core,
`BaseMachine::init` passes through a state (right after
`memoryHierarchyPtr = new MemoryHierarchy(*this)` at machine.cpp line 79,
before `setup_machine` at line 87) in which the memory hierarchy is
constructed while the cores sequence is still empty and not yet fully
populated. -/
theorem C1_counterexample :
    ¬ (∀ s ∈ initStates [GenEvent.addCore 0],
        s.mhConstructed = true →
          s.cores = (initFinal [GenEvent.addCore 0]).cores) := by
  decide

/-- C1 amended: during initialization the memory hierarchy is constructed
strictly before any core or controller is added — every reachable init
state that has a core or a controller already has a constructed memory
hierarchy — and it is constructed by the time init returns, hence before
the first simulated cycle runs. -/
theorem C1_mh_before_cores (gen : List GenEvent) :
    (∀ s ∈ initStates gen,
      (s.cores ≠ [] ∨ s.controllers ≠ []) → s.mhConstructed = true) ∧
    (initFinal gen).mhConstructed = true := by
  constructor
  · intro s hs hpop
    simp only [initStates, List.mem_cons] at hs
    rcases hs with rfl | rfl | rfl | hs
    · exact absurd hpop (by simp [initState0])
    · exact absurd hpop (by simp [initState0])
    · rfl
    · exact genStates_mh gen _ rfl s hs
  · exact foldl_applyGenEvent_mh gen _ rfl

/-- Witness for C1's amended claim at a concrete generator. -/
theorem C1_mh_before_cores_witness :
    (∀ s ∈ initStates [GenEvent.addCore 0, GenEvent.addController 0],
      (s.cores ≠ [] ∨ s.controllers ≠ []) → s.mhConstructed = true) ∧
    (initFinal [GenEvent.addCore 0, GenEvent.addController 0]).mhConstructed
      = true :=
  C1_mh_before_cores [GenEvent.addCore 0, GenEvent.addController 0]

/-- C2: the claim is right and the code is wrong.  At 5 cores and
`cores_per_pthread = 2` (threaded mode is entered since 5 > 2) the code's
`ceil(num_cores / cores_per_pthread)` truncates to 2 workers instead of
the intended ceiling 3; workers 0 and 1 simulate coreids [0,1] and [2,3],
and coreid 4 is assigned to no worker's slice. -/
theorem C2_worker_count_bug :
    num_threads 5 2 = 2 ∧
    (5 + 2 - 1) / 2 = 3 ∧
    workerCores 2 5 0 = [0, 1] ∧
    workerCores 2 5 1 = [2, 3] ∧
    (∀ i < num_threads 5 2, 4 ∉ workerCores 2 5 i) := by
  decide

/-- C9 as stated is false: on a machine owning two cores, one controller,
one interconnect and the memory hierarchy, `BaseMachine::reset` releases
the cores in forward construction order followed by the memory hierarchy,
releases neither the controller nor the interconnect, and the destructor
releases no owned component at all. -/
theorem C9_counterexample :
    (resetMachine ⟨[0, 1], [0], [0], true, [7], [], 0, 0⟩).2 =
      [TeardownEvent.releaseCore 0, TeardownEvent.releaseCore 1,
        TeardownEvent.releaseMemHierarchy] ∧
    TeardownEvent.releaseController 0 ∉
      (resetMachine ⟨[0, 1], [0], [0], true, [7], [], 0, 0⟩).2 ∧
    TeardownEvent.releaseInterconnect 0 ∉
      (resetMachine ⟨[0, 1], [0], [0], true, [7], [], 0, 0⟩).2 ∧
    TeardownEvent.releaseCore 0 ∉
      destructMachine ⟨[0, 1], [0], [0], true, [7], [], 0, 0⟩ ∧
    TeardownEvent.releaseMemHierarchy ∉
      destructMachine ⟨[0, 1], [0], [0], true, [7], [], 0, 0⟩ := by
  decide

/-- C9 amended: `reset` releases exactly the cores, in forward
construction order, followed by the memory hierarchy when present; it
never releases a controller or an interconnect (they survive reset
untouched, as do the worker-thread handles); the destructor releases no
owned component — its only teardown actions are killing each worker
thread and deregistering the machine. -/
theorem C9_teardown (m : MachineComponents) :
    (resetMachine m).2 =
      m.cores.map TeardownEvent.releaseCore ++
        (if m.memHierarchy then [TeardownEvent.releaseMemHierarchy]
          else []) ∧
    (∀ c, TeardownEvent.releaseController c ∉ (resetMachine m).2) ∧
    (∀ c, TeardownEvent.releaseInterconnect c ∉ (resetMachine m).2) ∧
    (resetMachine m).1.cores = [] ∧
    (resetMachine m).1.memHierarchy = false ∧
    (resetMachine m).1.controllers = m.controllers ∧
    (resetMachine m).1.interconnects = m.interconnects ∧
    (∀ e ∈ destructMachine m, e = TeardownEvent.removeMachine ∨
      ∃ i, e = TeardownEvent.killThread i) := by
  refine ⟨rfl, ?_, ?_, rfl, rfl, rfl, rfl, ?_⟩
  · intro c
    simp only [resetMachine, List.mem_append, List.mem_map]
    rintro (⟨x, _, h⟩ | h)
    · cases h
    · split_ifs at h <;> simp_all
  · intro c
    simp only [resetMachine, List.mem_append, List.mem_map]
    rintro (⟨x, _, h⟩ | h)
    · cases h
    · split_ifs at h <;> simp_all
  · intro e he
    simp only [destructMachine, List.mem_append, List.mem_map,
      List.mem_singleton] at he
    rcases he with ⟨i, _, rfl⟩ | rfl
    · exact Or.inr ⟨i, rfl⟩
    · exact Or.inl rfl

/-- A configuration requesting threaded simulation with quiet logging. -/
def tCfg : PTLsimConfig := ⟨"m", true, 2, 0, false, 0, 100, false, "auto"⟩

/-- A threaded configuration whose deferred-logging threshold is 5. -/
def dCfg : PTLsimConfig := ⟨"m", true, 2, 5, false, 0, 100, false, "auto"⟩

/-- Witness for C6 at a concrete input: threading requested, 5 cores, 2
cores per worker, loglevel 0. -/
theorem C6_threaded_mode_iff_witness :
    (runIsThreaded (setup_threads tCfg 5).cfg = true ↔
      (tCfg.threaded_simulation = true ∧ tCfg.cores_per_pthread < 5 ∧
        tCfg.loglevel = 0)) ∧
    ((setup_threads tCfg 5).cfg.threaded_simulation = false →
      (setup_threads tCfg 5).spawned = 0) :=
  C6_threaded_mode_iff tCfg 5

/-- Witness for C7 at a concrete input: the threshold 5 is already
reached at iteration 7, so the cycle degrades. -/
theorem C7_threaded_degradation_witness :
    (thrCycle dCfg [] [] ⟨0, 7, 0, none, false⟩ =
        ⟨true, { dCfg with threaded_simulation := false },
          ⟨0, 7, 0, none, false⟩, false, false, false, false⟩) ↔
      (dCfg.start_log_at_iteration ≠ 0 ∧
        dCfg.start_log_at_iteration ≤
          (⟨0, 7, 0, none, false⟩ : RunState).iterations) :=
  C7_threaded_degradation dCfg [] [] ⟨0, 7, 0, none, false⟩

/-- Witness for C9's amended claim on a concrete machine. -/
theorem C9_teardown_witness :
    (∀ c, TeardownEvent.releaseController c ∉
      (resetMachine ⟨[0, 1], [0], [0], true, [7], [], 0, 0⟩).2) ∧
    (∀ e ∈ destructMachine
        (⟨[0, 1], [0], [0], true, [7], [], 0, 0⟩ : MachineComponents),
      e = TeardownEvent.removeMachine ∨
        ∃ i, e = TeardownEvent.killThread i) :=
  ⟨(C9_teardown ⟨[0, 1], [0], [0], true, [7], [], 0, 0⟩).2.1,
    (C9_teardown ⟨[0, 1], [0], [0], true, [7], [], 0, 0⟩).2.2.2.2.2.2.2⟩

end Marss
